import Mathlib

/-!
Shallow embedding of the Doppler-Radar-Speed-Trap engine.

Numbers are embedded as exact rationals (ℚ): every formula in the source is a
field expression over decimal literals, so ℚ mirrors the source arithmetic
exactly up to IEEE-754 rounding, which no claim of interest depends on.
Where a claim is specifically about JavaScript's silent Infinity/NaN results
(division by zero), a small JSNum type models those special values explicitly.

Sources embedded:
- src/types.ts                  (constants C, RadarParams, Car)
- src/utils/physics.ts          (physics primitives)
- src/unnamed/part_000  (App)   (fastestCar selection and the quantized measurement)
- src/unnamed/part_001  (Oscilloscope.generateDiscreteSpectrum)
-/

/-- Speed of light in m/s, from src/types.ts. -/
def C : ℚ := 299792458

/-- From src/types.ts. Field names and order follow the RadarParams interface;
fftSize is an integer in every use (parseInt / select options). -/
structure RadarParams where
  frequencyGHz : ℚ
  intermediateFreqMHz : ℚ
  adcSamplingRateMHz : ℚ
  basebandSampleRateHz : ℚ
  fftSize : ℕ
deriving DecidableEq

/-- From src/types.ts, the Car interface. -/
structure Car where
  id : ℕ
  x : ℚ
  lane : ℕ
  color : String
  speedKmh : ℚ
deriving DecidableEq

/-- physics.ts calculateDopplerShift, specialized to the default
thetaDegrees = 0 (every call site in the repository uses the default, and
cos 0 = 1): f_d = 2 v f0 / c with v in m/s, f0 in Hz. -/
def calculateDopplerShift (velocityKmh frequencyGHz : ℚ) : ℚ :=
  2 * (velocityKmh / 3.6) * (frequencyGHz * 1e9) / C

/-- physics.ts calculateSpeedFromShift: v = c f_d / (2 f0), converted to km/h. -/
def calculateSpeedFromShift (shiftHz frequencyGHz : ℚ) : ℚ :=
  shiftHz * C / (2 * (frequencyGHz * 1e9)) * 3.6

/-- physics.ts calculateWavelengthMm. -/
def calculateWavelengthMm (frequencyGHz : ℚ) : ℚ :=
  C / (frequencyGHz * 1e9) * 1000

/-- physics.ts calculateFreqResolution: sampleRate / fftSize. -/
def calculateFreqResolution (sampleRateHz fftSize : ℚ) : ℚ :=
  sampleRateHz / fftSize

/-- physics.ts calculateSpeedResolution. -/
def calculateSpeedResolution (sampleRateHz fftSize frequencyGHz : ℚ) : ℚ :=
  calculateSpeedFromShift (calculateFreqResolution sampleRateHz fftSize) frequencyGHz

/-- physics.ts calculateMaxUnambiguousSpeed (Nyquist limit). -/
def calculateMaxUnambiguousSpeed (sampleRateHz frequencyGHz : ℚ) : ℚ :=
  calculateSpeedFromShift (sampleRateHz / 2) frequencyGHz

/-- JavaScript number values relevant to division: a finite value, the two
infinities, or NaN. Signed zero is not distinguished (no claim depends on it). -/
inductive JSNum where
  | finite (q : ℚ)
  | posInf
  | negInf
  | nan
deriving DecidableEq

/-- IEEE-754 division as performed by the JavaScript / operator, restricted to
the JSNum values: x/0 is a signed infinity for x ≠ 0 and NaN for 0/0;
infinities divided by finite values keep their (signed) infinity; a finite
value divided by an infinity is 0; NaN propagates; inf/inf is NaN. -/
def jsDiv : JSNum → JSNum → JSNum
  | JSNum.nan, _ => JSNum.nan
  | _, JSNum.nan => JSNum.nan
  | JSNum.finite a, JSNum.finite b =>
    if b ≠ 0 then JSNum.finite (a / b)
    else if 0 < a then JSNum.posInf
    else if a < 0 then JSNum.negInf
    else JSNum.nan
  | JSNum.posInf, JSNum.finite b => if 0 ≤ b then JSNum.posInf else JSNum.negInf
  | JSNum.negInf, JSNum.finite b => if 0 ≤ b then JSNum.negInf else JSNum.posInf
  | JSNum.finite _, JSNum.posInf => JSNum.finite 0
  | JSNum.finite _, JSNum.negInf => JSNum.finite 0
  | JSNum.posInf, JSNum.posInf => JSNum.nan
  | JSNum.posInf, JSNum.negInf => JSNum.nan
  | JSNum.negInf, JSNum.posInf => JSNum.nan
  | JSNum.negInf, JSNum.negInf => JSNum.nan

/-- physics.ts calculateFreqResolution evaluated under JavaScript number
semantics (JS has no checked division: sampleRate / fftSize is an IEEE-754
division whatever the operands are). -/
def calculateFreqResolutionJS (sampleRateHz fftSize : JSNum) : JSNum :=
  jsDiv sampleRateHz fftSize

/-- Modelled from the spec: the error taxonomy of spec section 7. The
repository's source contains no ConfigurationError (no error kind, no throw,
and no validation of fftSize / basebandSampleRateHz / frequencyGHz anywhere in
src); this type and the checked operation below are built from the spec's
words so the claimed fail-fast behaviour can be compared with the code. -/
inductive EngineError where
  | configurationError
deriving DecidableEq

/-- Modelled from the spec: frequency resolution with the fail-fast validation
the spec demands (reject non-positive sampleRate or fftSize with a
ConfigurationError instead of computing silently). Absent from src. -/
def frequencyResolutionChecked (sampleRateHz fftSize : ℚ) : Except EngineError ℚ :=
  if 0 < sampleRateHz ∧ 0 < fftSize then Except.ok (sampleRateHz / fftSize)
  else Except.error EngineError.configurationError

/-- The reducer arrow function inside the cars.reduce call of
src/unnamed/part_000 line 87: keep prev only when strictly faster, else take
current (so on a tie the later element wins). -/
def fasterOf (prev current : Car) : Car :=
  if prev.speedKmh > current.speedKmh then prev else current

/-- App (src/unnamed/part_000 lines 85-88): cars.reduce with the fasterOf
reducer, starting from the first element; null (none) for the empty list. -/
def fastestCar (cars : List Car) : Option Car :=
  match cars with
  | [] => none
  | c :: rest => some (rest.foldl fasterOf c)

/-- The measurement scalars App derives (src/unnamed/part_000 lines 90-96 and
the error readout on line 165). -/
structure MeasurementResult where
  trueSpeedKmh : ℚ
  trueDopplerShiftHz : ℚ
  measuredShiftHz : ℚ
  measuredSpeedKmh : ℚ
  errorKmh : ℚ
deriving DecidableEq

/-- src/unnamed/part_000 lines 90-96: the fastest car's speed (0 when there is
no car), its Doppler shift, the shift quantized to the nearest FFT bin
(Math.round, which is round-half-up, matching Mathlib's round), and the speed
recovered from the quantized shift; errorKmh is measured minus real (line 165). -/
def computeMeasurement (cfg : RadarParams) (cars : List Car) : MeasurementResult :=
  let realTargetSpeed : ℚ :=
    match fastestCar cars with
    | some c => c.speedKmh
    | none => 0
  let realDopplerShift := calculateDopplerShift realTargetSpeed cfg.frequencyGHz
  let freqResolutionHz := cfg.basebandSampleRateHz / (cfg.fftSize : ℚ)
  let measuredShiftHz := (round (realDopplerShift / freqResolutionHz) : ℚ) * freqResolutionHz
  let measuredSpeedKmh := calculateSpeedFromShift measuredShiftHz cfg.frequencyGHz
  { trueSpeedKmh := realTargetSpeed
    trueDopplerShiftHz := realDopplerShift
    measuredShiftHz := measuredShiftHz
    measuredSpeedKmh := measuredSpeedKmh
    errorKmh := measuredSpeedKmh - realTargetSpeed }

/-- One pass of the aliasing while-loop body in generateDiscreteSpectrum
(src/unnamed/part_001 lines 46-48): when effectiveFreq exceeds Nyquist
(sampleRate / 2) replace it by abs (effectiveFreq - sampleRate), else leave it. -/
def wrapStep (sampleRateHz eff : ℚ) : ℚ :=
  if sampleRateHz / 2 < eff then |eff - sampleRateHz| else eff

/-- n guarded iterations of the aliasing loop body. -/
def wrapIter (sampleRateHz : ℚ) : ℕ → ℚ → ℚ
  | 0, eff => eff
  | n + 1, eff => wrapIter sampleRateHz n (wrapStep sampleRateHz eff)

/-- The aliasing while-loop of generateDiscreteSpectrum: iterate the guarded
body until the guard fails. For a positive sample rate, floor (eff / rate) + 1
iterations always suffice (proved below), so running exactly that many guarded
steps computes the loop's result. -/
def aliasWrap (sampleRateHz eff : ℚ) : ℚ :=
  wrapIter sampleRateHz ((⌊eff / sampleRateHz⌋).toNat + 1) eff

/-- The bin a target lands in (src/unnamed/part_001 lines 39-52): Doppler
shift, absolute value, aliasing wrap, divide by the bin width, Math.round. -/
def targetBinIndex (cfg : RadarParams) (car : Car) : ℤ :=
  round (aliasWrap cfg.basebandSampleRateHz
      |calculateDopplerShift car.speedKmh cfg.frequencyGHz| /
    (cfg.basebandSampleRateHz / (cfg.fftSize : ℚ)))

/-- One element of the synthesized spectrum (the object literal built on
src/unnamed/part_001 lines 29-34). -/
structure SpecBin where
  binIndex : ℕ
  freq : ℚ
  speed : ℚ
  amp : ℚ
deriving DecidableEq

/-- In-bounds amplitude increment: data[i].amp += a for i < length; identity
past the end (callers that may go out of bounds use bumpChecked instead). -/
def bump : List SpecBin → ℕ → ℚ → List SpecBin
  | [], _, _ => []
  | b :: t, 0, a => { b with amp := b.amp + a } :: t
  | b :: t, n + 1, a => b :: bump t n a

/-- data[i].amp += a as JavaScript executes it: reading data[i] for
i ≥ data.length yields undefined and the .amp access throws; the throw is
modelled as none. -/
def bumpChecked (l : List SpecBin) (i : ℕ) (a : ℚ) : Option (List SpecBin) :=
  if i < l.length then some (bump l i a) else none

/-- src/unnamed/part_001 lines 29-34: the fftSize/2 initial bins, bin i at
frequency i * freqRes with its equivalent speed; noise i stands for the value
of the expression 2 + Math.random() * 2 drawn for bin i (the randomness seam). -/
def initBins (cfg : RadarParams) (noise : ℕ → ℚ) : List SpecBin :=
  (List.range (cfg.fftSize / 2)).map (fun i =>
    { binIndex := i
      freq := (i : ℚ) * (cfg.basebandSampleRateHz / (cfg.fftSize : ℚ))
      speed := calculateSpeedFromShift
        ((i : ℚ) * (cfg.basebandSampleRateHz / (cfg.fftSize : ℚ))) cfg.frequencyGHz
      amp := noise i })

/-- src/unnamed/part_001 lines 37-62: add signal energy for one car. Skip cars
with speed ≤ 0; wrap the shift, round to a bin; if the bin is inside
[0, numBins) add 100 there and 30 to each in-bounds neighbour. All these
accesses are index-guarded in the source, so plain bump is faithful here. -/
def applyTarget (cfg : RadarParams) (data : List SpecBin) (car : Car) : List SpecBin :=
  if 0 < car.speedKmh then
    let numBins := cfg.fftSize / 2
    let binIndex := targetBinIndex cfg car
    if 0 ≤ binIndex ∧ binIndex < (numBins : ℤ) then
      let j := binIndex.toNat
      let d1 := bump data j 100
      let d2 := if 0 < j then bump d1 (j - 1) 30 else d1
      if j < numBins - 1 then bump d2 (j + 1) 30 else d2
    else data
  else data

/-- src/unnamed/part_001 line 70: Math.max(200, maxSpeed * 0.8). -/
def visualCutoff (cfg : RadarParams) : ℚ :=
  max 200 (calculateMaxUnambiguousSpeed cfg.basebandSampleRateHz cfg.frequencyGHz * 0.8)

/-- src/unnamed/part_001 lines 15-72 (generateDiscreteSpectrum). For odd
fftSize the JavaScript new Array(fftSize / 2) throws a RangeError (fractional
length), modelled as none; the unconditional DC-clutter writes data[0] and
data[1] (lines 65-66) go through bumpChecked because nothing guards them; the
returned list is the visual filter of line 71. -/
def generateDiscreteSpectrum (cfg : RadarParams) (cars : List Car) (noise : ℕ → ℚ) :
    Option (List SpecBin) :=
  if 2 ∣ cfg.fftSize then
    match bumpChecked (cars.foldl (applyTarget cfg) (initBins cfg noise)) 0 150 with
    | some d =>
      match bumpChecked d 1 50 with
      | some d2 => some (d2.filter (fun b => b.speed < visualCutoff cfg))
      | none => none
    | none => none
  else none

/-- The default configuration of the app (src/unnamed/part_000 lines 42-48). -/
def defaultRadar : RadarParams :=
  { frequencyGHz := 24.15
    intermediateFreqMHz := 30
    adcSamplingRateMHz := 100
    basebandSampleRateHz := 44100
    fftSize := 512 }


/-- A car used as a concrete single-target input in witnesses. -/
def car80 : Car :=
  { id := 0, x := 0, lane := 0, color := "a", speedKmh := 80 }

/-- The app's initial three cars (speeds 80, 110, 60 from src/unnamed/part_000
line 23), with concrete positions standing in for Math.random() * 800. -/
def defaultCars : List Car :=
  [ { id := 0, x := 100, lane := 0, color := "a", speedKmh := 80 },
    { id := 1, x := 200, lane := 1, color := "b", speedKmh := 110 },
    { id := 2, x := 300, lane := 2, color := "c", speedKmh := 60 } ]

/-- The amp-independent part of a spectrum bin; the target and DC amplitude
writes change only amp, which this projection forgets. -/
def binShape (b : SpecBin) : ℕ × ℚ × ℚ :=
  (b.binIndex, b.freq, b.speed)

/-- A car at exactly the maximum unambiguous (Nyquist) speed of the default
configuration; its Doppler shift is exactly sampleRate / 2. -/
def carNyquist : Car :=
  { id := 0, x := 0, lane := 0, color := "a",
    speedKmh := calculateMaxUnambiguousSpeed 44100 24.15 }

/-- The default configuration with fftSize forced to 2 (allowed by the public
interface's fftSize > 0 requirement). -/
def radarFft2 : RadarParams :=
  { frequencyGHz := 24.15, intermediateFreqMHz := 30, adcSamplingRateMHz := 100,
    basebandSampleRateHz := 44100, fftSize := 2 }

/-- The default configuration with an odd fftSize. -/
def radarFft3 : RadarParams :=
  { frequencyGHz := 24.15, intermediateFreqMHz := 30, adcSamplingRateMHz := 100,
    basebandSampleRateHz := 44100, fftSize := 3 }

theorem wrapIter_of_le (sampleRateHz : ℚ) (n : ℕ) (e : ℚ) (h : e ≤ sampleRateHz / 2) :
    wrapIter sampleRateHz n e = e := by
  induction n with
  | zero => rfl
  | succ n ih =>
    have hg : ¬ sampleRateHz / 2 < e := not_lt.mpr h
    simp only [wrapIter, wrapStep, if_neg hg, ih]

theorem wrapIter_bound (sampleRateHz : ℚ) (hsr : 0 < sampleRateHz) :
    ∀ n (e : ℚ), 0 ≤ e → (⌊e / sampleRateHz⌋).toNat + 1 ≤ n →
      0 ≤ wrapIter sampleRateHz n e ∧ wrapIter sampleRateHz n e ≤ sampleRateHz / 2 := by
  intro n
  induction n with
  | zero => intro e _ hn; omega
  | succ n ih =>
    intro e he hn
    by_cases hg : sampleRateHz / 2 < e
    · by_cases hbig : e ≤ sampleRateHz
      · have habs : |e - sampleRateHz| = sampleRateHz - e := by
          rw [abs_of_nonpos (by linarith)]; ring
        have h2 : sampleRateHz - e ≤ sampleRateHz / 2 := by linarith
        rw [wrapIter, wrapStep, if_pos hg, habs, wrapIter_of_le _ _ _ h2]
        constructor <;> linarith
      · push_neg at hbig
        have habs : |e - sampleRateHz| = e - sampleRateHz := abs_of_nonneg (by linarith)
        have hfloor : ⌊(e - sampleRateHz) / sampleRateHz⌋ = ⌊e / sampleRateHz⌋ - 1 := by
          have hdiv : (e - sampleRateHz) / sampleRateHz = e / sampleRateHz - ((1 : ℤ) : ℚ) := by
            field_simp
          rw [hdiv, Int.floor_sub_int]
        have hge1 : 1 ≤ ⌊e / sampleRateHz⌋ := by
          apply Int.le_floor.mpr
          push_cast
          rw [le_div_iff₀ hsr]
          linarith
        have htofn : (⌊(e - sampleRateHz) / sampleRateHz⌋).toNat + 1 ≤ n := by
          rw [hfloor]; omega
        rw [wrapIter, wrapStep, if_pos hg, habs]
        exact ih (e - sampleRateHz) (by linarith) htofn
    · push_neg at hg
      rw [wrapIter, wrapStep, if_neg (not_lt.mpr hg), wrapIter_of_le _ _ _ hg]
      exact ⟨he, hg⟩

theorem aliasWrap_bound (sampleRateHz e : ℚ) (hsr : 0 < sampleRateHz) (he : 0 ≤ e) :
    0 ≤ aliasWrap sampleRateHz e ∧ aliasWrap sampleRateHz e ≤ sampleRateHz / 2 :=
  wrapIter_bound sampleRateHz hsr _ e he le_rfl

/-- Claim C6: composing the inverse then the forward Doppler formula is the
identity for every shift and every positive carrier frequency; over the exact
rational arithmetic of this embedding the equality is exact (the 3.6 and
2 f0 / c factors cancel algebraically at theta = 0), which implies the
spec's 1e-9 relative tolerance. -/
theorem doppler_roundTrip (shiftHz frequencyGHz : ℚ) (hf : 0 < frequencyGHz) :
    calculateDopplerShift (calculateSpeedFromShift shiftHz frequencyGHz) frequencyGHz =
      shiftHz := by
  unfold calculateDopplerShift calculateSpeedFromShift
  have hC : (C : ℚ) ≠ 0 := by norm_num [C]
  have hf9 : frequencyGHz * 1e9 ≠ 0 := by positivity
  field_simp
  ring

/-- Witness for C6 at shiftHz = 1000, frequencyGHz = 24.15. -/
theorem doppler_roundTrip_witness :
    calculateDopplerShift (calculateSpeedFromShift 1000 24.15) 24.15 = 1000 :=
  doppler_roundTrip 1000 24.15 (by norm_num)

/-- Claim C7: with sample rate and carrier frequency fixed and positive,
speedResolutionKmh is strictly decreasing in fftSize. -/
theorem speedResolution_strictAnti (sampleRateHz frequencyGHz n₁ n₂ : ℚ)
    (hsr : 0 < sampleRateHz) (hf : 0 < frequencyGHz) (h₁ : 0 < n₁) (h₁₂ : n₁ < n₂) :
    calculateSpeedResolution sampleRateHz n₂ frequencyGHz <
      calculateSpeedResolution sampleRateHz n₁ frequencyGHz := by
  unfold calculateSpeedResolution calculateSpeedFromShift calculateFreqResolution
  have hdiv : sampleRateHz / n₂ < sampleRateHz / n₁ := div_lt_div_of_pos_left hsr h₁ h₁₂
  have hden : (0 : ℚ) < 2 * (frequencyGHz * 1e9) := by positivity
  have hC : (0 : ℚ) < C := by norm_num [C]
  have hnum : sampleRateHz / n₂ * C < sampleRateHz / n₁ * C :=
    mul_lt_mul_of_pos_right hdiv hC
  have hq : sampleRateHz / n₂ * C / (2 * (frequencyGHz * 1e9)) <
      sampleRateHz / n₁ * C / (2 * (frequencyGHz * 1e9)) :=
    (div_lt_div_iff_of_pos_right hden).mpr hnum
  exact mul_lt_mul_of_pos_right hq (by norm_num)

/-- Witness for C7: the spec's own pair fftSize 128 vs 2048 at the default
sample rate and frequency. -/
theorem speedResolution_strictAnti_witness :
    calculateSpeedResolution 44100 2048 24.15 < calculateSpeedResolution 44100 128 24.15 :=
  speedResolution_strictAnti 44100 24.15 128 2048 (by norm_num) (by norm_num) (by norm_num)
    (by norm_num)

/-- Claim C8: with an empty target list the measurement is identically zero:
true speed, true shift, measured shift, measured speed and error are all 0. -/
theorem computeMeasurement_empty (cfg : RadarParams) (_hf : 0 < cfg.frequencyGHz)
    (_hsr : 0 < cfg.basebandSampleRateHz) (_hN : 0 < cfg.fftSize) :
    computeMeasurement cfg [] =
      { trueSpeedKmh := 0, trueDopplerShiftHz := 0, measuredShiftHz := 0,
        measuredSpeedKmh := 0, errorKmh := 0 } := by
  simp [computeMeasurement, fastestCar, calculateDopplerShift, calculateSpeedFromShift]

/-- Witness for C8 at the default configuration. -/
theorem computeMeasurement_empty_witness :
    computeMeasurement defaultRadar [] =
      { trueSpeedKmh := 0, trueDopplerShiftHz := 0, measuredShiftHz := 0,
        measuredSpeedKmh := 0, errorKmh := 0 } :=
  computeMeasurement_empty defaultRadar (by norm_num [defaultRadar])
    (by norm_num [defaultRadar]) (by norm_num [defaultRadar])

/-- Claim C9: for every positive sample rate and non-negative starting
frequency, the aliasing wrap loop terminates: some finite number of guarded
iterations reaches a value at which the loop guard (eff exceeds Nyquist)
fails, namely floor (eff / sampleRate) + 1 iterations. -/
theorem aliasLoop_terminates (sampleRateHz eff : ℚ) (hsr : 0 < sampleRateHz)
    (he : 0 ≤ eff) :
    ∃ n, wrapIter sampleRateHz n eff ≤ sampleRateHz / 2 :=
  ⟨(⌊eff / sampleRateHz⌋).toNat + 1,
    (wrapIter_bound sampleRateHz hsr _ eff he le_rfl).2⟩

/-- Witness for C9 at sample rate 44100 and a start of 100000 Hz (above
twice Nyquist, so the loop actually iterates). -/
theorem aliasLoop_terminates_witness :
    ∃ n, wrapIter 44100 n 100000 ≤ 44100 / 2 :=
  aliasLoop_terminates 44100 100000 (by norm_num) (by norm_num)

theorem reduce_split (c : Car) (l : List Car) :
    ∃ l₁ l₂,
      c :: l = l₁ ++ (l.foldl fasterOf c) :: l₂ ∧
      (∀ x ∈ c :: l, x.speedKmh ≤ (l.foldl fasterOf c).speedKmh) ∧
      (∀ x ∈ l₂, x.speedKmh < (l.foldl fasterOf c).speedKmh) := by
  induction l using List.reverseRecOn with
  | nil =>
    refine ⟨[], [], rfl, ?_, by intro x hx; simp at hx⟩
    intro x hx
    have hxc : x = c := by simpa using hx
    subst hxc
    simp
  | append_singleton l a ih =>
    obtain ⟨l₁, l₂, hsplit, hle, hlt⟩ := ih
    rw [List.foldl_append, List.foldl_cons, List.foldl_nil]
    by_cases hgt : (l.foldl fasterOf c).speedKmh > a.speedKmh
    · have hstep : fasterOf (l.foldl fasterOf c) a = l.foldl fasterOf c := if_pos hgt
      rw [hstep]
      refine ⟨l₁, l₂ ++ [a], ?_, ?_, ?_⟩
      · rw [← List.cons_append, hsplit]
        simp
      · intro x hx
        rcases (by simpa using hx : x = c ∨ x ∈ l ∨ x = a) with h | h | h
        · exact hle x (by simp [h])
        · exact hle x (by simp [h])
        · subst h
          exact le_of_lt hgt
      · intro x hx
        rcases List.mem_append.mp hx with h | h
        · exact hlt x h
        · rw [List.mem_singleton.mp h]
          exact hgt
    · have hstep : fasterOf (l.foldl fasterOf c) a = a := if_neg hgt
      push_neg at hgt
      rw [hstep]
      refine ⟨c :: l, [], by simp, ?_, by intro x hx; simp at hx⟩
      intro x hx
      rcases (by simpa using hx : x = c ∨ x ∈ l ∨ x = a) with h | h | h
      · exact (hle x (by simp [h])).trans hgt
      · exact (hle x (by simp [h])).trans hgt
      · subst h
        exact le_refl _

/-- Claim C1 (amended): for every non-empty target list the measurement
extractor selects a target of maximum radialSpeedKmh, but ties are broken by
the LAST occurrence in input order, not the first (the reducer keeps prev only
on strict inequality): the selected car is a maximum and everything after it
in the list is strictly slower. The reported trueSpeedKmh,
trueDopplerShiftHz, measuredShiftHz and measuredSpeedKmh are all computed
from that selected target. -/
theorem measurement_from_last_fastest (cfg : RadarParams) (cars : List Car)
    (h : cars ≠ []) :
    ∃ c, fastestCar cars = some c ∧
      (∀ x ∈ cars, x.speedKmh ≤ c.speedKmh) ∧
      (∃ l₁ l₂, cars = l₁ ++ c :: l₂ ∧ ∀ x ∈ l₂, x.speedKmh < c.speedKmh) ∧
      (computeMeasurement cfg cars).trueSpeedKmh = c.speedKmh ∧
      (computeMeasurement cfg cars).trueDopplerShiftHz =
        calculateDopplerShift c.speedKmh cfg.frequencyGHz ∧
      (computeMeasurement cfg cars).measuredShiftHz =
        (round (calculateDopplerShift c.speedKmh cfg.frequencyGHz /
          (cfg.basebandSampleRateHz / (cfg.fftSize : ℚ))) : ℚ) *
          (cfg.basebandSampleRateHz / (cfg.fftSize : ℚ)) ∧
      (computeMeasurement cfg cars).measuredSpeedKmh =
        calculateSpeedFromShift ((computeMeasurement cfg cars).measuredShiftHz)
          cfg.frequencyGHz := by
  match cars, h with
  | c₀ :: rest, _ =>
    obtain ⟨l₁, l₂, hsplit, hle, hlt⟩ := reduce_split c₀ rest
    exact ⟨rest.foldl fasterOf c₀, rfl, hle, ⟨l₁, l₂, hsplit, hlt⟩, rfl, rfl, rfl, rfl⟩

/-- Witness for C1 (amended) at the app's default three cars: the 110 km/h
car is selected and all reported values derive from it. -/
theorem measurement_from_last_fastest_witness :
    ∃ c, fastestCar defaultCars = some c ∧
      (∀ x ∈ defaultCars, x.speedKmh ≤ c.speedKmh) ∧
      (∃ l₁ l₂, defaultCars = l₁ ++ c :: l₂ ∧ ∀ x ∈ l₂, x.speedKmh < c.speedKmh) ∧
      (computeMeasurement defaultRadar defaultCars).trueSpeedKmh = c.speedKmh ∧
      (computeMeasurement defaultRadar defaultCars).trueDopplerShiftHz =
        calculateDopplerShift c.speedKmh defaultRadar.frequencyGHz ∧
      (computeMeasurement defaultRadar defaultCars).measuredShiftHz =
        (round (calculateDopplerShift c.speedKmh defaultRadar.frequencyGHz /
          (defaultRadar.basebandSampleRateHz / (defaultRadar.fftSize : ℚ))) : ℚ) *
          (defaultRadar.basebandSampleRateHz / (defaultRadar.fftSize : ℚ)) ∧
      (computeMeasurement defaultRadar defaultCars).measuredSpeedKmh =
        calculateSpeedFromShift
          ((computeMeasurement defaultRadar defaultCars).measuredShiftHz)
          defaultRadar.frequencyGHz :=
  measurement_from_last_fastest defaultRadar defaultCars (by simp [defaultCars])

/-- Counterexample for C1 as stated: two targets share the maximum speed
(80 km/h) and the extractor selects the SECOND one, not the first occurrence;
stable first-occurrence selection fails. -/
theorem fastestCar_tie_takes_last :
    ({ id := 0, x := 0, lane := 0, color := "a", speedKmh := 80 } : Car).speedKmh =
      ({ id := 1, x := 0, lane := 1, color := "b", speedKmh := 80 } : Car).speedKmh ∧
    fastestCar
      [ { id := 0, x := 0, lane := 0, color := "a", speedKmh := 80 },
        { id := 1, x := 0, lane := 1, color := "b", speedKmh := 80 } ] =
      some { id := 1, x := 0, lane := 1, color := "b", speedKmh := 80 } ∧
    ({ id := 1, x := 0, lane := 1, color := "b", speedKmh := 80 } : Car) ≠
      { id := 0, x := 0, lane := 0, color := "a", speedKmh := 80 } := by
  refine ⟨rfl, ?_, by decide⟩
  simp [fastestCar, fasterOf]

/-- Claim C5 (amended): in the default scenario (24.15 GHz, 44100 Hz, 512
points, single 80 km/h target) the exact values the code computes are:
Doppler shift within 1 Hz of 3580.25 Hz (not 3573.6), frequency resolution
exactly 86.1328125 Hz, quantized bin round(41.566...) = 42 (not 41), and a
measured speed of about 80.83 km/h (not 79.1) — still a non-zero
quantization error, as the spec intends. -/
theorem defaultScenario_values :
    |calculateDopplerShift 80 24.15 - 3580.25| < 1 ∧
    calculateFreqResolution 44100 512 = 86.1328125 ∧
    round (calculateDopplerShift 80 24.15 / calculateFreqResolution 44100 512) = (42 : ℤ) ∧
    (computeMeasurement defaultRadar [car80]).measuredShiftHz = 42 * (44100 / 512) ∧
    80.8 < (computeMeasurement defaultRadar [car80]).measuredSpeedKmh ∧
    (computeMeasurement defaultRadar [car80]).measuredSpeedKmh < 80.9 ∧
    (computeMeasurement defaultRadar [car80]).errorKmh ≠ 0 := by
  have h42 : round (calculateDopplerShift 80 24.15 / (44100 / ((512 : ℕ) : ℚ))) = (42 : ℤ) := by
    rw [round_eq, Int.floor_eq_iff]
    norm_num [calculateDopplerShift, C]
  have hm : computeMeasurement defaultRadar [car80] =
      { trueSpeedKmh := 80
        trueDopplerShiftHz := calculateDopplerShift 80 24.15
        measuredShiftHz := 42 * (44100 / 512)
        measuredSpeedKmh := calculateSpeedFromShift (42 * (44100 / 512)) 24.15
        errorKmh := calculateSpeedFromShift (42 * (44100 / 512)) 24.15 - 80 } := by
    simp only [computeMeasurement, fastestCar, List.foldl_nil, defaultRadar, car80]
    rw [h42]
    norm_num
  refine ⟨?_, by norm_num [calculateFreqResolution], ?_, ?_, ?_, ?_, ?_⟩
  · rw [abs_lt]
    constructor <;> norm_num [calculateDopplerShift, C]
  · have : calculateFreqResolution 44100 512 = 44100 / ((512 : ℕ) : ℚ) := by
      norm_num [calculateFreqResolution]
    rw [this, h42]
  · rw [hm]
  · rw [hm]
    norm_num [calculateSpeedFromShift, C]
  · rw [hm]
    norm_num [calculateSpeedFromShift, C]
  · rw [hm]
    norm_num [calculateSpeedFromShift, C]

/-- Counterexample for C5 as stated: the code's Doppler shift for 80 km/h at
24.15 GHz is more than 1 Hz away from the spec's 3573.6 Hz, and the quantized
bin is not round(41.49) = 41. -/
theorem defaultScenario_spec_numbers_wrong :
    1 < |calculateDopplerShift 80 24.15 - 3573.6| ∧
    round (calculateDopplerShift 80 24.15 / calculateFreqResolution 44100 512) ≠ (41 : ℤ) := by
  constructor
  · refine lt_of_lt_of_le ?_ (le_abs_self _)
    norm_num [calculateDopplerShift, C]
  · intro h
    rw [round_eq, Int.floor_eq_iff] at h
    norm_num [calculateDopplerShift, calculateFreqResolution, C] at h

theorem bump_map_binShape (l : List SpecBin) (i : ℕ) (a : ℚ) :
    (bump l i a).map binShape = l.map binShape := by
  induction l generalizing i with
  | nil => rfl
  | cons b t ih =>
    cases i with
    | zero => simp [bump, binShape]
    | succ n => simp [bump, ih]

theorem bump_length (l : List SpecBin) (i : ℕ) (a : ℚ) :
    (bump l i a).length = l.length := by
  have h := congrArg List.length (bump_map_binShape l i a)
  simpa using h

theorem applyTarget_map_binShape (cfg : RadarParams) (data : List SpecBin) (car : Car) :
    (applyTarget cfg data car).map binShape = data.map binShape := by
  unfold applyTarget
  by_cases h1 : 0 < car.speedKmh
  · rw [if_pos h1]
    by_cases h2 : 0 ≤ targetBinIndex cfg car ∧
        targetBinIndex cfg car < ((cfg.fftSize / 2 : ℕ) : ℤ)
    · rw [if_pos h2]
      by_cases h3 : 0 < (targetBinIndex cfg car).toNat <;>
        by_cases h4 : (targetBinIndex cfg car).toNat < cfg.fftSize / 2 - 1 <;>
          simp [h3, h4, bump_map_binShape]
    · rw [if_neg h2]
  · rw [if_neg h1]

theorem foldl_applyTarget_map_binShape (cfg : RadarParams) (cars : List Car)
    (data : List SpecBin) :
    ((cars.foldl (applyTarget cfg) data).map binShape) = data.map binShape := by
  induction cars generalizing data with
  | nil => rfl
  | cons c t ih => rw [List.foldl_cons, ih, applyTarget_map_binShape]

theorem initBins_map_binShape (cfg : RadarParams) (noise : ℕ → ℚ) :
    (initBins cfg noise).map binShape =
      (List.range (cfg.fftSize / 2)).map (fun i =>
        ((i : ℕ), (i : ℚ) * (cfg.basebandSampleRateHz / (cfg.fftSize : ℚ)),
          calculateSpeedFromShift
            ((i : ℚ) * (cfg.basebandSampleRateHz / (cfg.fftSize : ℚ))) cfg.frequencyGHz)) := by
  unfold initBins
  rw [List.map_map]
  rfl

theorem pipeline_map_binShape (cfg : RadarParams) (cars : List Car) (noise : ℕ → ℚ) :
    ((cars.foldl (applyTarget cfg) (initBins cfg noise)).map binShape) =
      (List.range (cfg.fftSize / 2)).map (fun i =>
        ((i : ℕ), (i : ℚ) * (cfg.basebandSampleRateHz / (cfg.fftSize : ℚ)),
          calculateSpeedFromShift
            ((i : ℚ) * (cfg.basebandSampleRateHz / (cfg.fftSize : ℚ))) cfg.frequencyGHz)) := by
  rw [foldl_applyTarget_map_binShape, initBins_map_binShape]

theorem pipeline_length (cfg : RadarParams) (cars : List Car) (noise : ℕ → ℚ) :
    (cars.foldl (applyTarget cfg) (initBins cfg noise)).length = cfg.fftSize / 2 := by
  have h := congrArg List.length (pipeline_map_binShape cfg cars noise)
  simpa using h

theorem generateDiscreteSpectrum_eq_some (cfg : RadarParams) (cars : List Car)
    (noise : ℕ → ℚ) (heven : 2 ∣ cfg.fftSize) (h2 : 2 ≤ cfg.fftSize / 2) :
    generateDiscreteSpectrum cfg cars noise =
      some ((bump (bump (cars.foldl (applyTarget cfg) (initBins cfg noise)) 0 150) 1 50).filter
        (fun b => b.speed < visualCutoff cfg)) := by
  unfold generateDiscreteSpectrum bumpChecked
  rw [if_pos heven]
  have hlen := pipeline_length cfg cars noise
  have h0 : 0 < (cars.foldl (applyTarget cfg) (initBins cfg noise)).length := by omega
  rw [if_pos h0]
  have h1 : 1 < (bump (cars.foldl (applyTarget cfg) (initBins cfg noise)) 0 150).length := by
    rw [bump_length]; omega
  dsimp only
  rw [if_pos h1]

/-- Claim C3 (amended): the spectrum synthesizer builds the fftSize/2
half-spectrum bins (bin i at frequency i * freqRes with its equivalent
speed), but RETURNS only those whose equivalent speed is below the visual
cutoff max(200, 0.8 * maxUnambiguousSpeed) — so the result is an ordered
(strictly increasing bin index) list of AT MOST fftSize/2 bins whose length
is exactly the number of half-spectrum bins passing that cutoff; it also
requires fftSize even and at least 4 to return at all. -/
theorem generateDiscreteSpectrum_shape (cfg : RadarParams) (cars : List Car) (noise : ℕ → ℚ)
    (heven : 2 ∣ cfg.fftSize) (h4 : 4 ≤ cfg.fftSize) :
    ∃ l, generateDiscreteSpectrum cfg cars noise = some l ∧
      l.length ≤ cfg.fftSize / 2 ∧
      l.length = (List.range (cfg.fftSize / 2)).countP (fun i : ℕ =>
        decide (calculateSpeedFromShift
          ((i : ℚ) * (cfg.basebandSampleRateHz / (cfg.fftSize : ℚ))) cfg.frequencyGHz <
          visualCutoff cfg)) ∧
      List.Pairwise (fun b b' => b.binIndex < b'.binIndex) l ∧
      ∀ b ∈ l, b.binIndex < cfg.fftSize / 2 ∧
        b.freq = (b.binIndex : ℚ) * (cfg.basebandSampleRateHz / (cfg.fftSize : ℚ)) ∧
        b.speed = calculateSpeedFromShift b.freq cfg.frequencyGHz := by
  have h2 : 2 ≤ cfg.fftSize / 2 := by omega
  have hgen := generateDiscreteSpectrum_eq_some cfg cars noise heven h2
  set d2 := bump (bump (cars.foldl (applyTarget cfg) (initBins cfg noise)) 0 150) 1 50 with hd2
  have hshape : d2.map binShape = (List.range (cfg.fftSize / 2)).map (fun i =>
      ((i : ℕ), (i : ℚ) * (cfg.basebandSampleRateHz / (cfg.fftSize : ℚ)),
        calculateSpeedFromShift
          ((i : ℚ) * (cfg.basebandSampleRateHz / (cfg.fftSize : ℚ))) cfg.frequencyGHz)) := by
    rw [hd2, bump_map_binShape, bump_map_binShape, pipeline_map_binShape]
  have hd2len : d2.length = cfg.fftSize / 2 := by
    have h := congrArg List.length hshape
    simpa using h
  refine ⟨d2.filter (fun b => b.speed < visualCutoff cfg), hgen, ?_, ?_, ?_, ?_⟩
  · exact le_of_le_of_eq (List.length_filter_le _ _) hd2len
  · rw [← List.countP_eq_length_filter]
    have e1 := List.countP_map (fun s : ℕ × ℚ × ℚ => decide (s.2.2 < visualCutoff cfg))
      binShape d2
    rw [hshape, List.countP_map] at e1
    simpa [Function.comp] using e1.symm
  · apply List.Pairwise.filter
    have hp : List.Pairwise (fun s t : ℕ × ℚ × ℚ => s.1 < t.1) (d2.map binShape) := by
      rw [hshape]
      exact List.pairwise_map.mpr ((List.pairwise_lt_range _).imp (fun h => h))
    exact (List.pairwise_map.mp hp).imp (fun h => h)
  · intro b hb
    have hb2 : b ∈ d2 := List.mem_of_mem_filter hb
    have hmem : binShape b ∈ d2.map binShape := List.mem_map_of_mem _ hb2
    rw [hshape] at hmem
    obtain ⟨i, hi, hEq⟩ := List.mem_map.mp hmem
    have hirange : i < cfg.fftSize / 2 := List.mem_range.mp hi
    rw [Prod.ext_iff, Prod.ext_iff] at hEq
    obtain ⟨hidx, hfreq, hspeed⟩ := hEq
    have hidx' : b.binIndex = i := hidx.symm
    refine ⟨hidx' ▸ hirange, ?_, ?_⟩
    · rw [binShape] at hfreq
      dsimp at hfreq
      rw [← hfreq, hidx']
    · rw [binShape] at hfreq hspeed
      dsimp at hfreq hspeed
      rw [← hspeed, ← hfreq]

/-- Claim C4 (amended): for every valid (positive sample rate, positive even
fftSize) configuration and every target, the rounded bin index after the
aliasing wrap lies in [0, fftSize/2] — the inclusive upper end fftSize/2 IS
reachable (a shift exactly at Nyquist rounds to bin fftSize/2, which the
code's range guard then drops), so the claim's half-open range [0, fftSize/2)
is the only part that fails. -/
theorem targetBinIndex_range (cfg : RadarParams) (car : Car)
    (hsr : 0 < cfg.basebandSampleRateHz) (hN : 0 < cfg.fftSize) (heven : 2 ∣ cfg.fftSize)
    (_hv : 0 < car.speedKmh) :
    0 ≤ targetBinIndex cfg car ∧
      targetBinIndex cfg car ≤ ((cfg.fftSize / 2 : ℕ) : ℤ) := by
  unfold targetBinIndex
  have he0 : 0 ≤ |calculateDopplerShift car.speedKmh cfg.frequencyGHz| := abs_nonneg _
  obtain ⟨hw0, hw1⟩ := aliasWrap_bound cfg.basebandSampleRateHz
    |calculateDopplerShift car.speedKmh cfg.frequencyGHz| hsr he0
  set w := aliasWrap cfg.basebandSampleRateHz
    |calculateDopplerShift car.speedKmh cfg.frequencyGHz| with hwdef
  have hNQ : (0 : ℚ) < (cfg.fftSize : ℚ) := by exact_mod_cast hN
  have hfr : (0 : ℚ) < cfg.basebandSampleRateHz / (cfg.fftSize : ℚ) := div_pos hsr hNQ
  have hx0 : 0 ≤ w / (cfg.basebandSampleRateHz / (cfg.fftSize : ℚ)) :=
    div_nonneg hw0 hfr.le
  have hxB : w / (cfg.basebandSampleRateHz / (cfg.fftSize : ℚ)) ≤ (cfg.fftSize : ℚ) / 2 := by
    rw [div_le_iff₀ hfr]
    refine hw1.trans (le_of_eq ?_)
    field_simp
    ring
  have hB : ((cfg.fftSize / 2 : ℕ) : ℚ) = (cfg.fftSize : ℚ) / 2 := by
    rw [Nat.cast_div heven (by norm_num)]
    norm_num
  constructor
  · rw [round_eq]
    exact Int.floor_nonneg.mpr (by linarith)
  · rw [round_eq]
    have hgoal : w / (cfg.basebandSampleRateHz / (cfg.fftSize : ℚ)) + 1 / 2 <
        ((cfg.fftSize / 2 : ℕ) : ℚ) + 1 := by
      rw [hB]
      linarith
    have hlt : ⌊w / (cfg.basebandSampleRateHz / (cfg.fftSize : ℚ)) + 1 / 2⌋ <
        ((cfg.fftSize / 2 : ℕ) : ℤ) + 1 := by
      apply Int.floor_lt.mpr
      exact_mod_cast hgoal
    omega

/-- Witness for C4 (amended) at the default configuration with the 80 km/h
car: the bin index lies in [0, 256]. -/
theorem targetBinIndex_range_witness :
    0 ≤ targetBinIndex defaultRadar car80 ∧
      targetBinIndex defaultRadar car80 ≤ ((defaultRadar.fftSize / 2 : ℕ) : ℤ) :=
  targetBinIndex_range defaultRadar car80 (by norm_num [defaultRadar])
    (by norm_num [defaultRadar]) (by norm_num [defaultRadar]) (by norm_num [car80])

/-- Counterexample for C4 as stated: a target travelling at exactly the
maximum unambiguous speed has a positive speed, survives the wrap loop
unchanged (its shift is exactly Nyquist), and rounds to bin 256 = fftSize/2,
which is OUTSIDE the claimed range [0, fftSize/2) — the code's defensive
guard is reachable. -/
theorem targetBinIndex_nyquist_edge :
    (0 : ℚ) < carNyquist.speedKmh ∧
    targetBinIndex defaultRadar carNyquist = 256 ∧
    ¬ ((256 : ℤ) < ((defaultRadar.fftSize / 2 : ℕ) : ℤ)) := by
  refine ⟨by norm_num [carNyquist, calculateMaxUnambiguousSpeed, calculateSpeedFromShift, C],
    ?_, by norm_num [defaultRadar]⟩
  unfold targetBinIndex
  have hshift : calculateDopplerShift carNyquist.speedKmh defaultRadar.frequencyGHz =
      22050 := by
    norm_num [calculateDopplerShift, calculateMaxUnambiguousSpeed, calculateSpeedFromShift,
      C, defaultRadar, carNyquist]
  rw [hshift]
  have habs : |(22050 : ℚ)| = 22050 := by norm_num
  rw [habs]
  have hwrap : aliasWrap defaultRadar.basebandSampleRateHz 22050 = 22050 := by
    unfold aliasWrap
    exact wrapIter_of_le _ _ _ (by norm_num [defaultRadar])
  rw [hwrap]
  have hdiv : (22050 : ℚ) / (defaultRadar.basebandSampleRateHz / (defaultRadar.fftSize : ℚ)) =
      256 := by
    norm_num [defaultRadar]
  rw [hdiv]
  norm_num

/-- Witness for C3 (amended) at the default configuration with no targets and
a zero noise floor. -/
theorem generateDiscreteSpectrum_shape_witness :
    ∃ l, generateDiscreteSpectrum defaultRadar [] (fun _ => 0) = some l ∧
      l.length ≤ defaultRadar.fftSize / 2 ∧
      l.length = (List.range (defaultRadar.fftSize / 2)).countP (fun i : ℕ =>
        decide (calculateSpeedFromShift
          ((i : ℚ) * (defaultRadar.basebandSampleRateHz / (defaultRadar.fftSize : ℚ)))
          defaultRadar.frequencyGHz < visualCutoff defaultRadar)) ∧
      List.Pairwise (fun b b' => b.binIndex < b'.binIndex) l ∧
      ∀ b ∈ l, b.binIndex < defaultRadar.fftSize / 2 ∧
        b.freq = (b.binIndex : ℚ) *
          (defaultRadar.basebandSampleRateHz / (defaultRadar.fftSize : ℚ)) ∧
        b.speed = calculateSpeedFromShift b.freq defaultRadar.frequencyGHz :=
  generateDiscreteSpectrum_shape defaultRadar [] (fun _ => 0)
    (by norm_num [defaultRadar]) (by norm_num [defaultRadar])

set_option maxRecDepth 20000 in
/-- Counterexample for C3 as stated: at the default configuration
(fftSize = 512) with no targets the synthesizer returns 205 bins, not
fftSize/2 = 256 — the visual-cutoff filter on the last line of
generateDiscreteSpectrum drops the high-speed bins. -/
theorem generateDiscreteSpectrum_not_half :
    (generateDiscreteSpectrum defaultRadar [] (fun _ => 0)).map (fun l => l.length) =
      some 205 ∧ (205 : ℕ) ≠ defaultRadar.fftSize / 2 :=
  ⟨by decide!, by norm_num [defaultRadar]⟩

/-- Claim C10: the DC-clutter writes to bins 0 and 1 are unconditional, so
the synthesizer is free of out-of-bounds accesses exactly when fftSize is
even and at least 4: (1) under that precondition it always returns a result;
(2) at fftSize = 2 (even, positive, so allowed by the interface) the write to
bin 1 is out of bounds (the single-bin array has no index 1); (3) for odd
fftSize the fractional-length array construction fails. -/
theorem spectrum_dc_write_safety :
    (∀ (cfg : RadarParams) (cars : List Car) (noise : ℕ → ℚ),
      2 ∣ cfg.fftSize → 4 ≤ cfg.fftSize →
      (generateDiscreteSpectrum cfg cars noise).isSome = true) ∧
    (∀ (cfg : RadarParams) (cars : List Car) (noise : ℕ → ℚ),
      cfg.fftSize = 2 → generateDiscreteSpectrum cfg cars noise = none) ∧
    (∀ (cfg : RadarParams) (cars : List Car) (noise : ℕ → ℚ),
      ¬ 2 ∣ cfg.fftSize → generateDiscreteSpectrum cfg cars noise = none) := by
  refine ⟨?_, ?_, ?_⟩
  · intro cfg cars noise heven h4
    rw [generateDiscreteSpectrum_eq_some cfg cars noise heven (by omega)]
    rfl
  · intro cfg cars noise h2
    unfold generateDiscreteSpectrum bumpChecked
    rw [if_pos (show 2 ∣ cfg.fftSize by omega)]
    have hlen := pipeline_length cfg cars noise
    rw [h2] at hlen
    have h0 : 0 < (cars.foldl (applyTarget cfg) (initBins cfg noise)).length := by
      omega
    rw [if_pos h0]
    dsimp only
    have h1 : ¬ 1 < (bump (cars.foldl (applyTarget cfg) (initBins cfg noise)) 0 150).length := by
      rw [bump_length]
      omega
    rw [if_neg h1]
  · intro cfg cars noise hodd
    unfold generateDiscreteSpectrum
    rw [if_neg hodd]

/-- Witness for C10: the default configuration succeeds; fftSize = 2 and
fftSize = 3 both fail. -/
theorem spectrum_dc_write_safety_witness :
    (generateDiscreteSpectrum defaultRadar [] (fun _ => 0)).isSome = true ∧
    generateDiscreteSpectrum radarFft2 [] (fun _ => 0) = none ∧
    generateDiscreteSpectrum radarFft3 [] (fun _ => 0) = none :=
  ⟨spectrum_dc_write_safety.1 defaultRadar [] (fun _ => 0) (by norm_num [defaultRadar])
      (by norm_num [defaultRadar]),
    spectrum_dc_write_safety.2.1 radarFft2 [] (fun _ => 0) rfl,
    spectrum_dc_write_safety.2.2 radarFft3 [] (fun _ => 0) (by norm_num [radarFft3])⟩

/-- Claim C2 (amended): the engine performs NO configuration validation and
defines no ConfigurationError: every physics primitive is a total arithmetic
function that never raises. With fftSize = 0 (non-positive) and a positive
sample rate, calculateFreqResolution silently returns Infinity under
JavaScript number semantics — exactly the silent non-finite result the spec
says must not happen — while the spec-modelled checked variant would return a
ConfigurationError; for positive arguments the code computes the finite
quotient and the checked variant agrees with it. -/
theorem physics_no_validation (sampleRateHz n : ℚ) (hsr : 0 < sampleRateHz) (hn : 0 < n) :
    calculateFreqResolutionJS (JSNum.finite sampleRateHz) (JSNum.finite 0) = JSNum.posInf ∧
    frequencyResolutionChecked sampleRateHz 0 = Except.error EngineError.configurationError ∧
    calculateFreqResolutionJS (JSNum.finite sampleRateHz) (JSNum.finite n) =
      JSNum.finite (sampleRateHz / n) ∧
    frequencyResolutionChecked sampleRateHz n = Except.ok (sampleRateHz / n) := by
  refine ⟨?_, ?_, ?_, ?_⟩
  · simp [calculateFreqResolutionJS, jsDiv, hsr]
  · simp [frequencyResolutionChecked]
  · simp [calculateFreqResolutionJS, jsDiv, ne_of_gt hn]
  · simp [frequencyResolutionChecked, hsr, hn]

/-- Witness for C2 (amended) at the default sample rate 44100 and
fftSize 512. -/
theorem physics_no_validation_witness :
    calculateFreqResolutionJS (JSNum.finite 44100) (JSNum.finite 0) = JSNum.posInf ∧
    frequencyResolutionChecked 44100 0 = Except.error EngineError.configurationError ∧
    calculateFreqResolutionJS (JSNum.finite 44100) (JSNum.finite 512) =
      JSNum.finite (44100 / 512) ∧
    frequencyResolutionChecked 44100 512 = Except.ok (44100 / 512) :=
  physics_no_validation 44100 512 (by norm_num) (by norm_num)

/-- Counterexample for C2 as stated: at sampleRate 44100, fftSize 0 the code
does not fail fast — the division silently evaluates to Infinity (JS
semantics), where the claimed behaviour is a ConfigurationError (shown by the
spec-modelled checked operation). -/
theorem freqResolution_silent_infinity :
    calculateFreqResolutionJS (JSNum.finite 44100) (JSNum.finite 0) = JSNum.posInf ∧
    frequencyResolutionChecked 44100 0 = Except.error EngineError.configurationError := by
  constructor
  · norm_num [calculateFreqResolutionJS, jsDiv]
  · norm_num [frequencyResolutionChecked]
